import Mathlib

/-!
# express-bookstore: the Book model and the application's fallback handlers

A shallow embedding of `src/models/book.js` (the five static methods of `Book`, each one
parameterised SQL statement followed by a check of the returned rows) and of the two
fallback middlewares of `src/app.js`.

The `books` table is a list of rows; every method takes the table and returns its outcome
(a value or the thrown value) together with the table afterwards. `db.query` is the
database running the statement on that table: it rejects only when the statement breaks a
constraint of the table (a lost connection is outside the model).
-/

namespace Bookstore

/-! ## Data model -/

/-- Modelled from the spec: one row of the `books` table, whose DDL is not among the
sources. Section 3 gives `isbn` as the text primary key (hence never null), `pages` and
`year` as integers (no width is given, so any integer) and the other columns as text. The
seven non-key columns are nullable: the test `PUT /books/:isbn` sends only a title and
expects success. -/
structure Row where
  isbn : String
  amazon_url : Option String
  author : Option String
  language : Option String
  pages : Option Int
  publisher : Option String
  title : Option String
  year : Option Int
deriving DecidableEq, Repr

/-- The `data` object handed to `Book.create` and `Book.update`, its values already in the
domain of their columns: a property that is absent (`undefined`) or `null` reaches the
database as NULL and is `none` here. -/
structure Data where
  isbn : Option String := none
  amazon_url : Option String := none
  author : Option String := none
  language : Option String := none
  pages : Option Int := none
  publisher : Option String := none
  title : Option String := none
  year : Option Int := none
deriving DecidableEq, Repr

/-- The `books` table: its rows in storage order. -/
abbrev Table := List Row

/-- Errors with which `db.query` rejects (by their PostgreSQL condition names). -/
inductive DbError where
  | notNullViolation
  | uniqueViolation
deriving DecidableEq, Repr

/-- Values a `Book` method throws: the plain object literal `{ message, status }` written
in the model, or the rejection of `db.query` passed on unchanged. -/
inductive Thrown where
  | object (message : String) (status : Nat)
  | db (e : DbError)
deriving DecidableEq, Repr

deriving instance DecidableEq for Except

/-- The text order the database sorts titles by (its collation, which the sources do not
fix), as a comparison function. -/
abbrev Collation := String → String → Bool

/-- A collation is a total preorder of text. -/
def IsCollation (c : Collation) : Prop :=
  (∀ a b, c a b = true ∨ c b a = true) ∧
  (∀ x y z, c x y = true → c y z = true → c x z = true)

/-- Comparison of two titles under `ORDER BY title` (ascending, so NULLs come last). -/
def titleLe (c : Collation) : Option String → Option String → Bool
  | _, none => true
  | none, some _ => false
  | some a, some b => c a b

/-- Row order of `ORDER BY title`. -/
def rowLe (c : Collation) (a b : Row) : Prop := titleLe c a.title b.title = true

instance instDecidableRowLe (c : Collation) : DecidableRel (rowLe c) :=
  fun a b => inferInstanceAs (Decidable (titleLe c a.title b.title = true))

/-! ## The SQL statements of `book.js` -/

/-- `SELECT isbn, ..., year FROM books WHERE isbn = $1`. -/
def selectWhereIsbn (t : Table) (isbn : String) : List Row :=
  t.filter (fun r => r.isbn == isbn)

/-- `SELECT isbn, ..., year FROM books ORDER BY title`. -/
def selectOrderByTitle (c : Collation) (t : Table) : List Row :=
  t.insertionSort (rowLe c)

/-- Modelled from the spec: the constraint of the `books` table (its DDL is not among the
sources). Sections 3 and 6 make `isbn` the primary key, so a row to insert is rejected when
its key is NULL or already in the table; otherwise the key to store is returned. -/
def checkPrimaryKey (t : Table) (key : Option String) : Except DbError String :=
  match key with
  | none => .error .notNullViolation
  | some i => if t.any (fun r => r.isbn == i) then .error .uniqueViolation else .ok i

/-- `INSERT INTO books (...) VALUES ($1, ..., $8) RETURNING ...`: once the key passes the
table's constraint, the new row is stored and returned. -/
def insertReturning (t : Table) (d : Data) : Except DbError (List Row) × Table :=
  match checkPrimaryKey t d.isbn with
  | .error e => (.error e, t)
  | .ok i =>
    let row : Row := ⟨i, d.amazon_url, d.author, d.language, d.pages, d.publisher,
      d.title, d.year⟩
    (.ok [row], t ++ [row])

/-- The `SET` clause of the UPDATE: all seven non-key columns are assigned. -/
def setColumns (d : Data) (r : Row) : Row :=
  { r with amazon_url := d.amazon_url, author := d.author, language := d.language,
           pages := d.pages, publisher := d.publisher, title := d.title, year := d.year }

/-- `UPDATE books SET ... WHERE isbn=$8 RETURNING ...`: the rows updated and the table. -/
def updateReturning (t : Table) (d : Data) (isbn : String) : List Row × Table :=
  ((t.filter (fun r => r.isbn == isbn)).map (setColumns d),
   t.map (fun r => if r.isbn == isbn then setColumns d r else r))

/-- `DELETE FROM books WHERE isbn = $1 RETURNING isbn`. -/
def deleteReturning (t : Table) (isbn : String) : List String × Table :=
  ((t.filter (fun r => r.isbn == isbn)).map Row.isbn,
   t.filter (fun r => !(r.isbn == isbn)))

/-! ## `Book` -/

/-- The object literal thrown on a miss:
`{ message: "There is no book with an isbn '<isbn>'", status: 404 }`. -/
def notFound (isbn : String) : Thrown :=
  .object ("There is no book with an isbn \x27" ++ isbn ++ "\x27") 404

/-- `Book.findOne(isbn)`. -/
def findOne (t : Table) (isbn : String) : Except Thrown Row × Table :=
  let rows := selectWhereIsbn t isbn
  match rows with
  | [] => (.error (notFound isbn), t)
  | r :: _ => (.ok r, t)

/-- `Book.findAll()`. -/
def findAll (c : Collation) (t : Table) : Except Thrown (List Row) × Table :=
  (.ok (selectOrderByTitle c t), t)

/-- `Book.create(data)`: returns `result.rows[0]` (`none` standing for `undefined`). -/
def create (t : Table) (data : Data) : Except Thrown (Option Row) × Table :=
  match insertReturning t data with
  | (.error e, t1) => (.error (.db e), t1)
  | (.ok rows, t1) => (.ok rows[0]?, t1)

/-- `Book.update(isbn, data)`. -/
def update (t : Table) (isbn : String) (data : Data) : Except Thrown Row × Table :=
  match updateReturning t data isbn with
  | ([], t1) => (.error (notFound isbn), t1)
  | (r :: _, t1) => (.ok r, t1)

/-- `Book.remove(isbn)`. -/
def remove (t : Table) (isbn : String) : Except Thrown Unit × Table :=
  match deleteReturning t isbn with
  | ([], t1) => (.error (notFound isbn), t1)
  | (_ :: _, t1) => (.ok (), t1)

/-- A row carries the same eight field values as a `data` object. -/
def Row.sameFields (r : Row) (d : Data) : Prop :=
  some r.isbn = d.isbn ∧ r.amazon_url = d.amazon_url ∧ r.author = d.author ∧
  r.language = d.language ∧ r.pages = d.pages ∧ r.publisher = d.publisher ∧
  r.title = d.title ∧ r.year = d.year

/-- A row carries the seven mutable field values of a `data` object. -/
def Row.sameMutableFields (r : Row) (d : Data) : Prop :=
  r.amazon_url = d.amazon_url ∧ r.author = d.author ∧
  r.language = d.language ∧ r.pages = d.pages ∧ r.publisher = d.publisher ∧
  r.title = d.title ∧ r.year = d.year

/-- All eight fields of the `data` object are present. -/
def Data.WellFormed (d : Data) : Prop :=
  d.isbn.isSome ∧ d.amazon_url.isSome ∧ d.author.isSome ∧ d.language.isSome ∧
  d.pages.isSome ∧ d.publisher.isSome ∧ d.title.isSome ∧ d.year.isSome

/-- No two rows of the table share an isbn. -/
def UniqueIsbn (t : Table) : Prop := (t.map Row.isbn).Nodup

instance instDecidableUniqueIsbn (t : Table) : Decidable (UniqueIsbn t) :=
  inferInstanceAs (Decidable (t.map Row.isbn).Nodup)

/-! ## `app.js` -/

/-- An error value as the handlers of `app.js` read it: its `message` and `status`
properties (`none` when the property is undefined). -/
structure ErrorValue where
  message : Option String
  status : Option Nat
deriving DecidableEq, Repr

/-- The JSON body `{ error: err, message: err.message }`. -/
structure ErrorBody where
  error : ErrorValue
  message : Option String
deriving DecidableEq, Repr

/-- The response object `res`: the status code set so far and the body sent, if any. -/
structure Response where
  statusCode : Nat
  body : Option ErrorBody
deriving DecidableEq, Repr

/-- Exceptions the JavaScript runtime raises while a handler body runs. -/
inductive RuntimeError where
  | referenceError (identifier : String)
deriving DecidableEq, Repr

/-- The identifiers bound where the body of the general error handler runs: its four
parameters, the constants declared at the top of `app.js`, the names the CommonJS module
wrapper provides and the global `console`. Node defines no global named `response`. -/
def handlerScope : List String :=
  ["err", "req", "res", "next", "express", "app", "ExpressError", "bookRoutes",
   "exports", "require", "module", "__filename", "__dirname", "console"]

/-- Evaluation of a reference to an identifier: a ReferenceError when it is not bound. -/
def resolveIdentifier (scope : List String) (name : String) : Except RuntimeError Unit :=
  if scope.contains name then .ok () else .error (.referenceError name)

/-- Modelled from the spec: `new ExpressError(message, status)`, whose file
`expressError.js` is not among the sources; the error it builds carries the given message
and status. -/
def ExpressError (message : String) (status : Nat) : ErrorValue :=
  ⟨some message, some status⟩

/-- `err.status || 500`: the status when it is truthy (set and not 0), else 500. -/
def statusOr500 (err : ErrorValue) : Nat :=
  match err.status with
  | some n => if n = 0 then 500 else n
  | none => 500

/-- The general error handler of `app.js`, statement by statement:
`res.status(err.status || 500); console.log(response); return res.json({...})`. -/
def generalErrorHandler (err : ErrorValue) (res : Response) :
    Except RuntimeError Unit × Response :=
  let res1 : Response := { res with statusCode := statusOr500 err }
  match resolveIdentifier handlerScope "response" with
  | .error e => (.error e, res1)
  | .ok () => (.ok (), { res1 with body := some ⟨err, err.message⟩ })

/-- The 404 handler of `app.js`: `const err = new ExpressError("Not Found", 404);
return next(err)`, which hands `err` to the general error handler (the only error
middleware registered). -/
def notFoundHandler (res : Response) : Except RuntimeError Unit × Response :=
  let err := ExpressError "Not Found" 404
  generalErrorHandler err res

/-- The response before any handler touched it. -/
def freshResponse : Response := ⟨200, none⟩

/-! ## Sample data -/

/-- Lexicographic comparison of two lists of character codes. -/
def codesLe : List Nat → List Nat → Bool
  | [], _ => true
  | _ :: _, [] => false
  | a :: as, b :: bs => decide (a < b) || (decide (a = b) && codesLe as bs)

/-- Titles compared character by character (code point order). -/
def codepointCollation : Collation :=
  fun a b => codesLe (a.data.map Char.toNat) (b.data.map Char.toNat)

/-- The book of `routes/books.test.js`. -/
def powerUp : Row :=
  ⟨"1234567890", some "", some "Matthew Lane", some "english", some 264,
   some "Princeton University Press",
   some "Power-Up: Unlocking the Hidden Mathematics in Video Games", some 2017⟩

/-- The payload that creates `powerUp`. -/
def powerUpData : Data :=
  ⟨some "1234567890", some "", some "Matthew Lane", some "english", some 264,
   some "Princeton University Press",
   some "Power-Up: Unlocking the Hidden Mathematics in Video Games", some 2017⟩

/-- A second book. -/
def otherBook : Row :=
  ⟨"0691161518", some "http://a.co/eobPtX2", some "A. Author", some "english", some 100,
   some "Some Press", some "Another Title", some 2001⟩

/-! ## The methods on the sample data -/

theorem findOne_hit_example :
    (findOne [otherBook, powerUp] "1234567890").1 = .ok powerUp := by decide

theorem findOne_miss_example :
    (findOne [otherBook, powerUp] "0").1 =
      .error (.object "There is no book with an isbn \x270\x27" 404) := by decide

theorem create_fresh_example :
    create [otherBook] powerUpData = (.ok (some powerUp), [otherBook, powerUp]) := by decide

theorem create_duplicate_example :
    create [powerUp] powerUpData = (.error (.db .uniqueViolation), [powerUp]) := by decide

theorem create_without_isbn_example :
    create [powerUp] { title := some "Untitled" } =
      (.error (.db .notNullViolation), [powerUp]) := by decide

theorem remove_example :
    remove [otherBook, powerUp] "1234567890" = (.ok (), [otherBook]) := by decide

theorem update_partial_example :
    (update [otherBook, powerUp] "1234567890" { title := some "Updated Book Title" }).1 =
      .ok ⟨"1234567890", none, none, none, none, none, some "Updated Book Title", none⟩ := by
  decide

theorem findAll_example :
    (findAll codepointCollation [powerUp, otherBook]).1 = .ok [otherBook, powerUp] := by
  decide

/-! ## Lemmas on the SQL statements -/

theorem selectWhereIsbn_eq_nil_iff (t : Table) (isbn : String) :
    selectWhereIsbn t isbn = [] ↔ ∀ r ∈ t, r.isbn ≠ isbn := by
  simp [selectWhereIsbn, List.filter_eq_nil_iff]

theorem mem_selectWhereIsbn {t : Table} {isbn : String} {r : Row} :
    r ∈ selectWhereIsbn t isbn ↔ r ∈ t ∧ r.isbn = isbn := by
  simp [selectWhereIsbn, List.mem_filter]

theorem updateReturning_of_missing (t : Table) (d : Data) (isbn : String)
    (h : ∀ r ∈ t, r.isbn ≠ isbn) : updateReturning t d isbn = ([], t) := by
  have h1 : t.filter (fun r => r.isbn == isbn) = [] := by
    simpa [List.filter_eq_nil_iff] using h
  have h2 : t.map (fun r => if r.isbn == isbn then setColumns d r else r) = t := by
    conv_rhs => rw [← List.map_id t]
    apply List.map_congr_left
    intro r hr
    simp [h r hr]
  unfold updateReturning
  rw [h1, h2]
  rfl

theorem deleteReturning_of_missing (t : Table) (isbn : String)
    (h : ∀ r ∈ t, r.isbn ≠ isbn) : deleteReturning t isbn = ([], t) := by
  have h1 : t.filter (fun r => r.isbn == isbn) = [] := by
    simpa [List.filter_eq_nil_iff] using h
  have h2 : t.filter (fun r => !(r.isbn == isbn)) = t := by
    rw [List.filter_eq_self]
    intro r hr
    simp [h r hr]
  unfold deleteReturning
  rw [h1, h2]
  rfl

theorem findOne_table (t : Table) (isbn : String) : (findOne t isbn).2 = t := by
  unfold findOne
  cases selectWhereIsbn t isbn <;> rfl

theorem findOne_of_missing (t : Table) (isbn : String) (h : ∀ r ∈ t, r.isbn ≠ isbn) :
    findOne t isbn = (.error (notFound isbn), t) := by
  have h1 := (selectWhereIsbn_eq_nil_iff t isbn).2 h
  simp [findOne, h1]

theorem remove_table (t : Table) (isbn : String) :
    (remove t isbn).2 = t.filter (fun r => !(r.isbn == isbn)) := by
  unfold remove deleteReturning
  cases (t.filter (fun r => r.isbn == isbn)).map Row.isbn <;> rfl

theorem update_table (t : Table) (isbn : String) (d : Data) :
    (update t isbn d).2 = t.map (fun r => if r.isbn == isbn then setColumns d r else r) := by
  unfold update updateReturning
  cases (t.filter (fun r => r.isbn == isbn)).map (setColumns d) <;> rfl

theorem exists_cons_of_exists_mem {t : Table} {isbn : String} (h : ∃ r ∈ t, r.isbn = isbn) :
    ∃ r rest, t.filter (fun r => r.isbn == isbn) = r :: rest := by
  obtain ⟨r, hr, hri⟩ := h
  have hmem : r ∈ t.filter (fun r => r.isbn == isbn) := by
    simp [List.mem_filter, hr, hri]
  cases hf : t.filter (fun r => r.isbn == isbn) with
  | nil => rw [hf] at hmem; cases hmem
  | cons a rest => exact ⟨a, rest, rfl⟩

theorem filter_updated (t : Table) (isbn : String) (d : Data) :
    (t.map (fun r => if r.isbn == isbn then setColumns d r else r)).filter
        (fun r => r.isbn == isbn) =
      (t.filter (fun r => r.isbn == isbn)).map (setColumns d) := by
  induction t with
  | nil => rfl
  | cons a t ih =>
    rw [List.map_cons, List.filter_cons, List.filter_cons, ih]
    by_cases ha : a.isbn = isbn
    · simp [ha, setColumns]
    · simp [ha]

theorem filter_others_updated (t : Table) (isbn : String) (d : Data) :
    (t.map (fun r => if r.isbn == isbn then setColumns d r else r)).filter
        (fun r => !(r.isbn == isbn)) =
      t.filter (fun r => !(r.isbn == isbn)) := by
  induction t with
  | nil => rfl
  | cons a t ih =>
    rw [List.map_cons, List.filter_cons, List.filter_cons, ih]
    by_cases ha : a.isbn = isbn
    · simp [ha, setColumns]
    · simp [ha]

theorem isbns_updated (t : Table) (isbn : String) (d : Data) :
    (t.map (fun r => if r.isbn == isbn then setColumns d r else r)).map Row.isbn =
      t.map Row.isbn := by
  rw [List.map_map]
  apply List.map_congr_left
  intro r _
  by_cases hr : r.isbn = isbn <;> simp [hr, setColumns]

theorem titleLe_total {c : Collation} (hc : IsCollation c) (a b : Option String) :
    titleLe c a b = true ∨ titleLe c b a = true := by
  cases a <;> cases b <;> simp [titleLe]
  exact hc.1 _ _

theorem titleLe_trans {c : Collation} (hc : IsCollation c) (x y z : Option String) :
    titleLe c x y = true → titleLe c y z = true → titleLe c x z = true := by
  cases x <;> cases y <;> cases z <;> simp [titleLe]
  exact hc.2 _ _ _

theorem sorted_selectOrderByTitle {c : Collation} (hc : IsCollation c) (t : Table) :
    (selectOrderByTitle c t).Sorted (rowLe c) := by
  haveI : IsTotal Row (rowLe c) := ⟨fun a b => titleLe_total hc a.title b.title⟩
  haveI : IsTrans Row (rowLe c) :=
    ⟨fun x y z hxy hyz => titleLe_trans hc x.title y.title z.title hxy hyz⟩
  exact List.sorted_insertionSort (rowLe c) t

theorem codesLe_total : ∀ a b : List Nat, codesLe a b = true ∨ codesLe b a = true
  | [], _ => by simp [codesLe]
  | _ :: _, [] => by simp [codesLe]
  | a :: as, b :: bs => by
    rcases lt_trichotomy a b with h | h | h
    · left; simp [codesLe, h]
    · subst h
      rcases codesLe_total as bs with h1 | h1
      · left; simp [codesLe, h1]
      · right; simp [codesLe, h1]
    · right; simp [codesLe, h]

theorem codesLe_trans : ∀ a b c : List Nat,
    codesLe a b = true → codesLe b c = true → codesLe a c = true
  | [], _, _ => by simp [codesLe]
  | _ :: _, [], _ => by simp [codesLe]
  | _ :: _, _ :: _, [] => by simp [codesLe]
  | a :: as, b :: bs, c :: cs => by
    simp only [codesLe, Bool.or_eq_true, Bool.and_eq_true, decide_eq_true_eq]
    rintro (h1 | ⟨h1, h1r⟩) (h2 | ⟨h2, h2r⟩)
    · exact Or.inl (lt_trans h1 h2)
    · exact Or.inl (h2 ▸ h1)
    · exact Or.inl (h1 ▸ h2)
    · exact Or.inr ⟨h1.trans h2, codesLe_trans as bs cs h1r h2r⟩

theorem isCollation_codepoint : IsCollation codepointCollation :=
  ⟨fun _ _ => codesLe_total _ _, fun _ _ _ => codesLe_trans _ _ _⟩

/-! ## The claims -/

/-- C1: `Book.findOne(isbn)` fails exactly when no row of the table has that isbn; the
value it then throws is `{ message: "There is no book with an isbn '<isbn>'", status: 404 }`;
when it succeeds it returns a row of the table whose isbn is the argument. -/
theorem findOne_spec (t : Table) (isbn : String) :
    ((∃ e, (findOne t isbn).1 = .error e) ↔ ∀ r ∈ t, r.isbn ≠ isbn) ∧
    (∀ e, (findOne t isbn).1 = .error e →
      e = .object ("There is no book with an isbn \x27" ++ isbn ++ "\x27") 404) ∧
    (∀ r, (findOne t isbn).1 = .ok r → r ∈ t ∧ r.isbn = isbn) := by
  rw [← selectWhereIsbn_eq_nil_iff]
  unfold findOne
  cases hrows : selectWhereIsbn t isbn with
  | nil => simp [notFound]
  | cons r rest =>
    have hr : r ∈ selectWhereIsbn t isbn := by rw [hrows]; exact List.mem_cons_self _ _
    have hr2 := mem_selectWhereIsbn.1 hr
    refine ⟨by simp, by simp, ?_⟩
    intro r2 h2
    simp only [Except.ok.injEq] at h2
    subst h2
    exact hr2

/-- C5: when no row has the isbn, `Book.update(isbn, data)` and `Book.remove(isbn)` both
throw `{ message: "There is no book with an isbn '<isbn>'", status: 404 }` and the table
is as before. -/
theorem update_remove_missing (t : Table) (isbn : String) (data : Data)
    (h : ∀ r ∈ t, r.isbn ≠ isbn) :
    update t isbn data =
      (.error (.object ("There is no book with an isbn \x27" ++ isbn ++ "\x27") 404), t) ∧
    remove t isbn =
      (.error (.object ("There is no book with an isbn \x27" ++ isbn ++ "\x27") 404), t) := by
  constructor
  · simp [update, updateReturning_of_missing t data isbn h, notFound]
  · simp [remove, deleteReturning_of_missing t isbn h, notFound]

theorem update_remove_missing_witness :
    (∀ r ∈ [otherBook, powerUp], r.isbn ≠ "999") ∧
    update [otherBook, powerUp] "999" { title := some "Updated Book Title" } =
      (.error (.object "There is no book with an isbn \x27999\x27" 404),
        [otherBook, powerUp]) ∧
    remove [otherBook, powerUp] "999" =
      (.error (.object "There is no book with an isbn \x27999\x27" 404),
        [otherBook, powerUp]) :=
  ⟨by decide, update_remove_missing [otherBook, powerUp] "999" _ (by decide)⟩


/-- C6: when some row has the isbn, `Book.remove(isbn)` succeeds and returns nothing, and
on the resulting table `Book.findOne(isbn)` throws the 404 object. -/
theorem remove_existing (t : Table) (isbn : String) (h : ∃ r ∈ t, r.isbn = isbn) :
    (remove t isbn).1 = .ok () ∧
    (findOne (remove t isbn).2 isbn).1 =
      .error (.object ("There is no book with an isbn \x27" ++ isbn ++ "\x27") 404) := by
  constructor
  · obtain ⟨r, rest, hf⟩ := exists_cons_of_exists_mem h
    simp [remove, deleteReturning, hf]
  · rw [remove_table, findOne_of_missing]
    · rfl
    · intro r hr
      simpa using (List.mem_filter.1 hr).2

theorem remove_existing_witness :
    (∃ r ∈ [otherBook, powerUp], r.isbn = "1234567890") ∧
    (remove [otherBook, powerUp] "1234567890").1 = .ok () ∧
    (findOne (remove [otherBook, powerUp] "1234567890").2 "1234567890").1 =
      .error (.object "There is no book with an isbn \x271234567890\x27" 404) :=
  ⟨⟨powerUp, by decide, rfl⟩,
   remove_existing [otherBook, powerUp] "1234567890" ⟨powerUp, by decide, rfl⟩⟩

/-- C3: `Book.findAll()` never throws; the list it returns is a permutation of the table
rows (so of the same length, and empty for the empty table) and is sorted by title in
non-decreasing order, for whatever total preorder the database collates text by (NULL
titles last). -/
theorem findAll_spec (c : Collation) (t : Table) (hc : IsCollation c) :
    ∃ rows, (findAll c t).1 = .ok rows ∧ rows.Perm t ∧ rows.length = t.length ∧
      (t = [] → rows = []) ∧ rows.Sorted (rowLe c) := by
  refine ⟨selectOrderByTitle c t, rfl, List.perm_insertionSort _ t,
    List.length_insertionSort _ t, ?_, sorted_selectOrderByTitle hc t⟩
  rintro rfl
  rfl

theorem findAll_spec_witness :
    IsCollation codepointCollation ∧
    ∃ rows, (findAll codepointCollation [powerUp, otherBook]).1 = .ok rows ∧
      rows.Perm [powerUp, otherBook] ∧ rows.length = [powerUp, otherBook].length ∧
      ([powerUp, otherBook] = [] → rows = []) ∧ rows.Sorted (rowLe codepointCollation) :=
  ⟨isCollation_codepoint,
   findAll_spec codepointCollation [powerUp, otherBook] isCollation_codepoint⟩

/-- C2: round trip. On a table with no row of `data.isbn`, `Book.create(data)` for a `data`
with all eight fields present returns a row with the eight field values of `data`, and
`Book.findOne(data.isbn)` on the resulting table succeeds with a row of the same eight
field values. -/
theorem create_roundtrip (t : Table) (data : Data)
    (hwf : data.WellFormed) (hfresh : ∀ r ∈ t, some r.isbn ≠ data.isbn) :
    ∃ isbn row, data.isbn = some isbn ∧ (create t data).1 = .ok (some row) ∧
      row.sameFields data ∧
      ∃ row2, (findOne (create t data).2 isbn).1 = .ok row2 ∧ row2.sameFields data := by
  obtain ⟨isbn, hisbn⟩ := Option.isSome_iff_exists.1 hwf.1
  have hfresh2 : ∀ r ∈ t, r.isbn ≠ isbn := by
    intro r hr heq
    exact hfresh r hr (by rw [hisbn, heq])
  have hany : (t.any fun r => r.isbn == isbn) = false := by
    simpa [List.any_eq_false] using hfresh2
  have hsel : selectWhereIsbn t isbn = [] := (selectWhereIsbn_eq_nil_iff t isbn).2 hfresh2
  refine ⟨isbn, ⟨isbn, data.amazon_url, data.author, data.language, data.pages,
    data.publisher, data.title, data.year⟩, hisbn, ?_, ?_, ?_⟩
  · simp [create, insertReturning, checkPrimaryKey, hisbn, hany]
  · simp [Row.sameFields, hisbn]
  · refine ⟨⟨isbn, data.amazon_url, data.author, data.language, data.pages, data.publisher,
      data.title, data.year⟩, ?_, ?_⟩
    · unfold selectWhereIsbn at hsel
      simp [create, insertReturning, checkPrimaryKey, hisbn, hany, findOne, selectWhereIsbn, hsel]
    · simp [Row.sameFields, hisbn]

theorem create_roundtrip_witness :
    powerUpData.WellFormed ∧ (∀ r ∈ [otherBook], some r.isbn ≠ powerUpData.isbn) ∧
    ∃ isbn row, powerUpData.isbn = some isbn ∧
      (create [otherBook] powerUpData).1 = .ok (some row) ∧ row.sameFields powerUpData ∧
      ∃ row2, (findOne (create [otherBook] powerUpData).2 isbn).1 = .ok row2 ∧
        row2.sameFields powerUpData :=
  ⟨by simp [Data.WellFormed, powerUpData], by decide,
   create_roundtrip [otherBook] powerUpData
     (by simp [Data.WellFormed, powerUpData]) (by decide)⟩

/-- C4: when some row has the isbn, `Book.update(isbn, data)` succeeds for every `data`
(absent fields being NULL) and returns a row with that isbn whose seven mutable fields are
those of `data`; `Book.findOne(isbn)` on the resulting table returns that same row. -/
theorem update_existing (t : Table) (isbn : String) (data : Data)
    (h : ∃ r ∈ t, r.isbn = isbn) :
    ∃ row, (update t isbn data).1 = .ok row ∧ row.isbn = isbn ∧
      row.sameMutableFields data ∧ (findOne (update t isbn data).2 isbn).1 = .ok row := by
  obtain ⟨r, rest, hf⟩ := exists_cons_of_exists_mem h
  have hr : r.isbn = isbn := by
    have hmem : r ∈ t.filter (fun r => r.isbn == isbn) := by
      rw [hf]; exact List.mem_cons_self _ _
    simpa using (List.mem_filter.1 hmem).2
  refine ⟨setColumns data r, ?_, ?_, ?_, ?_⟩
  · simp [update, updateReturning, hf]
  · simpa [setColumns] using hr
  · simp [Row.sameMutableFields, setColumns]
  · rw [update_table]
    unfold findOne selectWhereIsbn
    rw [filter_updated, hf]
    rfl

theorem update_existing_witness :
    (∃ r ∈ [otherBook, powerUp], r.isbn = "1234567890") ∧
    ∃ row, (update [otherBook, powerUp] "1234567890"
        { title := some "Updated Book Title" }).1 = .ok row ∧
      row.isbn = "1234567890" ∧
      row.sameMutableFields { title := some "Updated Book Title" } ∧
      (findOne (update [otherBook, powerUp] "1234567890"
        { title := some "Updated Book Title" }).2 "1234567890").1 = .ok row :=
  ⟨⟨powerUp, by decide, rfl⟩,
   update_existing [otherBook, powerUp] "1234567890" _ ⟨powerUp, by decide, rfl⟩⟩

/-- C9: if no two rows share an isbn, then none do after `Book.create`, `Book.update`,
`Book.remove`, `Book.findOne` or `Book.findAll`, whether the call succeeds or throws;
`Book.create` with an isbn already in the table is rejected and leaves the table as it
was, with at most one row of that isbn; `Book.update` leaves the isbn of every row as it
was. -/
theorem uniqueIsbn_preserved (c : Collation) (t : Table) (isbn : String) (data : Data)
    (h : UniqueIsbn t) :
    UniqueIsbn (create t data).2 ∧ UniqueIsbn (update t isbn data).2 ∧
    UniqueIsbn (remove t isbn).2 ∧ UniqueIsbn (findOne t isbn).2 ∧
    UniqueIsbn (findAll c t).2 ∧
    (∀ i, data.isbn = some i → (∃ r ∈ t, r.isbn = i) →
      create t data = (.error (.db .uniqueViolation), t) ∧
      (create t data).2.countP (fun r => r.isbn == i) ≤ 1) ∧
    (update t isbn data).2.map Row.isbn = t.map Row.isbn := by
  have hcount : ∀ i, t.countP (fun r => r.isbn == i) ≤ 1 := by
    intro i
    have := List.nodup_iff_count_le_one.1 h i
    rwa [List.count, List.countP_map] at this
  refine ⟨?_, ?_, ?_, ?_, h, ?_, ?_⟩
  · unfold create insertReturning checkPrimaryKey
    cases hd : data.isbn with
    | none => exact h
    | some i =>
      by_cases hany : (t.any fun r => r.isbn == i) = true
      · simpa [hany] using h
      · simp only [hany, Bool.false_eq_true, if_false]
        unfold UniqueIsbn at h ⊢
        rw [List.map_append, List.nodup_append]
        refine ⟨h, List.nodup_singleton _, ?_⟩
        intro a ha hb
        simp only [List.map_cons, List.map_nil, List.mem_singleton] at hb
        subst hb
        obtain ⟨r, hr, hri⟩ := List.mem_map.1 ha
        exact hany (List.any_eq_true.2 ⟨r, hr, by simpa using hri⟩)
  · unfold UniqueIsbn
    rw [update_table, isbns_updated]
    exact h
  · unfold UniqueIsbn
    rw [remove_table]
    exact h.sublist (List.Sublist.map _ (List.filter_sublist _))
  · rw [findOne_table]
    exact h
  · intro i hi hex
    have hany : (t.any fun r => r.isbn == i) = true := by
      obtain ⟨r, hr, hri⟩ := hex
      exact List.any_eq_true.2 ⟨r, hr, by simpa using hri⟩
    have hc : create t data = (.error (.db .uniqueViolation), t) := by
      simp [create, insertReturning, checkPrimaryKey, hi, hany]
    refine ⟨hc, ?_⟩
    rw [hc]
    exact hcount i
  · rw [update_table, isbns_updated]

theorem uniqueIsbn_preserved_witness :
    UniqueIsbn [otherBook, powerUp] ∧
    UniqueIsbn (create [otherBook, powerUp] powerUpData).2 ∧
    UniqueIsbn (update [otherBook, powerUp] "1234567890" powerUpData).2 ∧
    UniqueIsbn (remove [otherBook, powerUp] "1234567890").2 ∧
    UniqueIsbn (findOne [otherBook, powerUp] "1234567890").2 ∧
    UniqueIsbn (findAll codepointCollation [otherBook, powerUp]).2 ∧
    (∀ i, powerUpData.isbn = some i → (∃ r ∈ [otherBook, powerUp], r.isbn = i) →
      create [otherBook, powerUp] powerUpData =
        (.error (.db .uniqueViolation), [otherBook, powerUp]) ∧
      (create [otherBook, powerUp] powerUpData).2.countP (fun r => r.isbn == i) ≤ 1) ∧
    (update [otherBook, powerUp] "1234567890" powerUpData).2.map Row.isbn =
      [otherBook, powerUp].map Row.isbn :=
  ⟨by decide,
   uniqueIsbn_preserved codepointCollation [otherBook, powerUp] "1234567890" powerUpData
     (by decide)⟩

/-- C10: frame. A successful `Book.update(isbn, data)` leaves the rows of every other isbn
as they were, in place, and keeps the row count; a successful `Book.remove(isbn)` leaves
the rows of every other isbn as they were and lowers the row count by the number of rows
of that isbn, which is one when isbns are unique; `Book.findOne` and `Book.findAll` leave
the table as it was. -/
theorem update_remove_frame (c : Collation) (t : Table) (isbn : String) (data : Data) :
    (∀ row, (update t isbn data).1 = .ok row →
      (update t isbn data).2.filter (fun r => !(r.isbn == isbn)) =
        t.filter (fun r => !(r.isbn == isbn)) ∧
      (update t isbn data).2.length = t.length) ∧
    ((remove t isbn).1 = .ok () →
      (remove t isbn).2.filter (fun r => !(r.isbn == isbn)) =
        t.filter (fun r => !(r.isbn == isbn)) ∧
      (remove t isbn).2.length + t.countP (fun r => r.isbn == isbn) = t.length ∧
      (UniqueIsbn t → (remove t isbn).2.length + 1 = t.length)) ∧
    (findOne t isbn).2 = t ∧ (findAll c t).2 = t := by
  have hlen : (t.filter (fun r => !(r.isbn == isbn))).length +
      t.countP (fun r => r.isbn == isbn) = t.length := by
    rw [← List.countP_eq_length_filter, Nat.add_comm,
      List.length_eq_countP_add_countP (fun r => r.isbn == isbn) t]
    congr 1
    apply List.countP_congr
    intro r _
    simp
  refine ⟨?_, ?_, findOne_table t isbn, rfl⟩
  · intro _ _
    rw [update_table]
    exact ⟨filter_others_updated t isbn data, List.length_map _ _⟩
  · intro hok
    rw [remove_table]
    refine ⟨by rw [List.filter_filter]; simp, hlen, ?_⟩
    intro huniq
    have hle : t.countP (fun r => r.isbn == isbn) ≤ 1 := by
      have := List.nodup_iff_count_le_one.1 huniq isbn
      rwa [List.count, List.countP_map] at this
    have hpos : 0 < t.countP (fun r => r.isbn == isbn) := by
      by_contra hzero
      have hnone : ∀ r ∈ t, r.isbn ≠ isbn := by
        have h0 : t.countP (fun r => r.isbn == isbn) = 0 := by omega
        simpa [List.countP_eq_zero] using h0
      have := deleteReturning_of_missing t isbn hnone
      simp [remove, this] at hok
    omega

theorem update_remove_frame_witness :
    (∀ row, (update [otherBook, powerUp] "1234567890" powerUpData).1 = .ok row →
      (update [otherBook, powerUp] "1234567890" powerUpData).2.filter
          (fun r => !(r.isbn == "1234567890")) =
        [otherBook, powerUp].filter (fun r => !(r.isbn == "1234567890")) ∧
      (update [otherBook, powerUp] "1234567890" powerUpData).2.length =
        [otherBook, powerUp].length) ∧
    ((remove [otherBook, powerUp] "1234567890").1 = .ok () →
      (remove [otherBook, powerUp] "1234567890").2.filter
          (fun r => !(r.isbn == "1234567890")) =
        [otherBook, powerUp].filter (fun r => !(r.isbn == "1234567890")) ∧
      (remove [otherBook, powerUp] "1234567890").2.length +
          [otherBook, powerUp].countP (fun r => r.isbn == "1234567890") =
        [otherBook, powerUp].length ∧
      (UniqueIsbn [otherBook, powerUp] →
        (remove [otherBook, powerUp] "1234567890").2.length + 1 =
          [otherBook, powerUp].length)) ∧
    (findOne [otherBook, powerUp] "1234567890").2 = [otherBook, powerUp] ∧
    (findAll codepointCollation [otherBook, powerUp]).2 = [otherBook, powerUp] :=
  update_remove_frame codepointCollation [otherBook, powerUp] "1234567890" powerUpData

/-- C7 (evaluation of the code): for every error value and every response, the general
error handler sets the status to `err.status || 500` and then throws a ReferenceError at
`console.log(response)`: `res.json` is not reached and the body is left as it was. -/
theorem generalErrorHandler_throws (err : ErrorValue) (res : Response) :
    generalErrorHandler err res =
      (.error (.referenceError "response"), ⟨statusOr500 err, res.body⟩) := by
  have h : resolveIdentifier handlerScope "response" =
      .error (.referenceError "response") := by decide
  simp [generalErrorHandler, h]

/-- C8 (evaluation of the code): for an unmatched route the 404 handler builds the
"Not Found" error with status 404 and passes it on; the general error handler sets status
404 and throws a ReferenceError, so no JSON body with message "Not Found" is sent. -/
theorem notFoundHandler_throws :
    notFoundHandler freshResponse = (.error (.referenceError "response"), ⟨404, none⟩) := by
  decide

end Bookstore
